import Mathlib

set_option linter.unusedSectionVars false

/-!
# Verification of the PCA-CD drift detector (`src/molten/distribution/pca_cd.py`)

Shallow embedding of the PCA-CD change-detection algorithm.  Numbers are
modelled as elements of a linear ordered field with a floor (instantiated at
`ℚ` for executable witnesses and at `ℝ` for the claims about the kernel
density estimates, which use `Real.log`, `Real.exp` and `Real.sqrt`).  Python
floats are modelled as exact field elements; `numpy`/`pandas` frames are
lists of rows; a Python function that can raise returns `Except DetErr`.

External numerical routines that the repository calls but does not define
(the square root / fractional power used for bandwidths, `sklearn`'s PCA
fit) are passed to the embedded functions as explicit arguments, so every
theorem about the state machine holds for an arbitrary behaviour of those
collaborators.
-/

namespace PcaCd

/-- Errors surfaced by the embedded Python code.  Each constructor records a
distinct raise site: shape validation inside `sklearn` transforms, `% 0`,
`max`/`min` of an empty sequence, dictionary lookup failures, method access
on `None`, `statistics.stdev` on fewer than two points, and `sklearn`'s
`KernelDensity` bandwidth validation, plus the `int(nan)` failure from
`np.sqrt` of a negative number in the constructor. -/
inductive DetErr where
  | dimMismatch : DetErr
  | zeroDivisionError : DetErr
  | valueError : DetErr
  | keyError : DetErr
  | attributeError : DetErr
  | statisticsError : DetErr
  | nonPositiveBandwidth : DetErr
  | nanToInt : DetErr
  deriving DecidableEq, Repr

section Generic

variable {α : Type} [LinearOrderedField α] [FloorRing α]

/-- Python's built-in `round`: round half to even (banker's rounding).
Models `round(x)` on the exact value of `x`. -/
def pythonRound (x : α) : ℤ :=
  let f := ⌊x⌋
  let r := x - (f : α)
  if r < 1 / 2 then f
  else if 1 / 2 < r then f + 1
  else if f % 2 = 0 then f else f + 1

/-- Arithmetic mean of a list, `sum / len` (0 for the empty list, matching
the Lean division-by-zero convention; the code never takes the mean of an
empty sample on a non-raising path). -/
def listMean (l : List α) : α := l.sum / l.length

/-- `numpy`-style histogram bin index for `x` in `bins` uniform bins over
`[lo, hi]`: left-closed bins, with the final bin also closed on the right
(`np.histogram` places `x = hi` in the last bin). -/
def binIdx (bins : ℕ) (lo hi x : α) : ℕ :=
  min (bins - 1) (⌊(x - lo) * bins / (hi - lo)⌋).toNat

/-- Whether `x` is inside the histogram range (`np.histogram` silently drops
out-of-range points). -/
def inRange (lo hi x : α) : Prop := lo ≤ x ∧ x ≤ hi

instance (lo hi x : α) : Decidable (inRange lo hi x) := by
  unfold inRange; infer_instance

/-- Count of sample points that fall in bin `i`. -/
def binCount (bins : ℕ) (lo hi : α) (sample : List α) (i : ℕ) : ℕ :=
  sample.countP (fun x => decide (inRange lo hi x) && (binIdx bins lo hi x == i))

/-- Number of sample points inside the histogram range. -/
def inRangeCount (lo hi : α) (sample : List α) : ℕ :=
  sample.countP (fun x => decide (inRange lo hi x))

/-- Histogram density representation: the dict returned by
`PCACD._build_histograms` (`bin_edges` and normalized `density`). -/
structure HistRep (α : Type) where
  binEdges : List α
  density : List α
  deriving DecidableEq, Repr

/-- `PCACD._build_histograms(sample, bins, bin_range)`: `np.histogram` with
`density=True` gives per-bin values `count / (total * width)`; the method
then divides by their sum, so the returned `density` are the per-bin
probability masses. -/
def buildHistograms (sample : List α) (bins : ℕ) (lo hi : α) : HistRep α :=
  let width := (hi - lo) / bins
  let total := inRangeCount lo hi sample
  let raw := (List.range bins).map
    (fun i => (binCount bins lo hi sample i : α) / (total * width))
  { binEdges := (List.range (bins + 1)).map (fun i => lo + i * width)
    density := raw.map (· / raw.sum) }

/-- `PCACD._intersection_divergence`: `1 - np.sum(np.minimum(ref, test))`
over the two density lists. -/
def intersectionDivergence (densityReference densityTest : HistRep α) : α :=
  1 - ((densityReference.density.zip densityTest.density).map
        (fun ab => min ab.1 ab.2)).sum

/-- The intersection divergence of the histograms of two samples binned
with the same bin count over the same shared range (the composition that
claim C4 quantifies over). -/
def histDivergence (xs ys : List α) (bins : ℕ) (lo hi : α) : α :=
  intersectionDivergence (buildHistograms xs bins lo hi)
    (buildHistograms ys bins lo hi)

/-- `PCACD._epanechnikov_kernel`: `0.75 * (1 - x^2)` for `|x| ≤ 1`, else 0. -/
def epanechnikovKernel (x : α) : α :=
  if |x| ≤ 1 then 3 / 4 * (1 - x ^ 2) else 0

/-- `statistics.stdev`'s squared value: the sample variance with Bessel's
correction, `Σ (x - mean)² / (n - 1)`. -/
def sampleVariance (l : List α) : α :=
  (l.map (fun x => (x - listMean l) ^ 2)).sum / ((l.length : α) - 1)

/-- Density of `sklearn`'s `KernelDensity(kernel="epanechnikov")` fitted on
`sample` with the given bandwidth, evaluated at `x`:
`(1 / (n * h)) * Σ_j K((x - x_j) / h)`. -/
def kdeDensityAt (sample : List α) (bandwidth x : α) : α :=
  (sample.map (fun xj => epanechnikovKernel ((x - xj) / bandwidth))).sum
    / ((sample.length : α) * bandwidth)

/-- The dict returned by `PCACD._build_kde`: the `density` values at the
training points, and the fitted `KernelDensity` object, modelled by its
training `sample` and `bandwidth`. -/
structure KdeRep (α : Type) where
  density : List α
  sample : List α
  bandwidth : α
  deriving DecidableEq, Repr

/-- `score_samples` of the fitted `KernelDensity` object: the log-density at
a point. -/
def scoreSamples (logF : α → α) (k : KdeRep α) (x : α) : α :=
  logF (kdeDensityAt k.sample k.bandwidth x)

/-- `PCACD._build_kde(sample)`.  `statistics.stdev` raises
`StatisticsError` on fewer than two data points; `sklearn`'s
`KernelDensity` validates that the bandwidth is positive and raises
`ValueError` otherwise (this is how a zero-variance sample surfaces, since
its bandwidth `1.06 * stdev * n^(-1/5)` degenerates to 0).  The `density`
entry is `np.exp(score_samples(sample))`, i.e. the Epanechnikov KDE density
at each training point.  The square root inside `statistics.stdev` and the
fractional power `n ** (-1/5)` are passed in as functions. -/
def buildKde (sqrtF powNegFifth : α → α) (sample : List α) :
    Except DetErr (KdeRep α) :=
  if sample.length < 2 then .error .statisticsError
  else
    let bandwidth :=
      106 / 100 * sqrtF (sampleVariance sample) * powNegFifth (sample.length : α)
    if bandwidth ≤ 0 then .error .nonPositiveBandwidth
    else .ok { density := sample.map (fun x => kdeDensityAt sample bandwidth x)
               sample := sample
               bandwidth := bandwidth }

/-- `scipy.stats.entropy(pk, qk)`: both vectors are normalized to sum 1, and
the result is `Σ p̂ᵢ · log(p̂ᵢ / q̂ᵢ)` (the Kullback-Leibler divergence of the
normalized vectors). -/
def scipyEntropy (logF : α → α) (p q : List α) : α :=
  ((p.zip q).map
    (fun ab => ab.1 / p.sum * logF (ab.1 / p.sum / (ab.2 / q.sum)))).sum

/-- `PCACD._modified_kl_divergence`: appends the reference and test
projections, evaluates both fitted kernels' densities
(`np.exp(score_samples(...))`) at every appended point, and returns the
larger of the two directed `scipy.stats.entropy` values. -/
def modifiedKlDivergence (logF expF : α → α)
    (refPcaProjection testPcaProjection : List α)
    (densityReference densityTest : KdeRep α) : α :=
  let pcaProjection := refPcaProjection ++ testPcaProjection
  let refEstimates :=
    pcaProjection.map (fun x => expF (scoreSamples logF densityReference x))
  let testEstimates :=
    pcaProjection.map (fun x => expF (scoreSamples logF densityTest x))
  max (scipyEntropy logF refEstimates testEstimates)
    (scipyEntropy logF testEstimates refEstimates)

/-- `PCACD._llh_divergence`: `np.log` of the stored reference density
values, summed, and the test projection re-scored under the reference
kernel, summed; the absolute difference of `total_llh_test / len(ref)` and
`total_llh_ref / len(test)` (note the crossed divisors, exactly as in the
source). -/
def llhDivergence (logF : α → α) (densityReference : KdeRep α)
    (testPcaProjection : List α) : α :=
  let refDensityEstimates := densityReference.density
  let testDensityEstimates :=
    testPcaProjection.map (scoreSamples logF densityReference)
  |testDensityEstimates.sum / (refDensityEstimates.length : α)
    - (refDensityEstimates.map logF).sum / (testPcaProjection.length : α)|

/-- The C3 claim's reading of the log-likelihood divergence, with each total
normalized by the length of its own sample.  Defined from the spec's words
(not from the source) for comparison with `llhDivergence`. -/
def llhDivergenceSpec (logF : α → α) (densityReference : KdeRep α)
    (testPcaProjection : List α) : α :=
  let refDensityEstimates := densityReference.density
  let testDensityEstimates :=
    testPcaProjection.map (scoreSamples logF densityReference)
  |(refDensityEstimates.map logF).sum / (refDensityEstimates.length : α)
    - testDensityEstimates.sum / (testPcaProjection.length : α)|

/-- Modelled from the spec: the Page-Hinkley sequential test
(`molten/other/page_hinkley.py`) is consumed by PCA-CD but its source is
not under `src/`.  Per §4.4 and §2 of the spec it consumes one scalar per
`update`, maintains cumulative deviation statistics (running mean,
cumulative deviation sum and its running minimum), flags drift once the
cumulative deviation exceeds the threshold after the burn-in, and `reset`
clears all internal state back to the freshly-constructed one. -/
structure PhState (α : Type) where
  delta : α
  threshold : α
  burnIn : ℕ
  numObs : ℕ
  runningMean : α
  cumSum : α
  minSum : α
  driftState : Option Bool
  deriving DecidableEq, Repr

/-- Modelled from the spec: `PageHinkley(delta=..., threshold=..., burn_in=...)`. -/
def phInit (delta threshold : α) (burnIn : ℕ) : PhState α :=
  { delta := delta, threshold := threshold, burnIn := burnIn, numObs := 0
    runningMean := 0, cumSum := 0, minSum := 0, driftState := none }

/-- Modelled from the spec: `PageHinkley.reset()` clears the cumulative
state, keeping the configuration. -/
def phReset (s : PhState α) : PhState α := phInit s.delta s.threshold s.burnIn

/-- Modelled from the spec: one Page-Hinkley step on a scalar change score
(the `obs_id` bookkeeping of the real detector is dropped; the spec treats
the test as a black box whose only observable is its drift status). -/
def phUpdate (s : PhState α) (x : α) : PhState α :=
  let n := s.numObs + 1
  let mean := s.runningMean + (x - s.runningMean) / (n : α)
  let cum := s.cumSum + (x - mean - s.delta)
  let mn := min s.minSum cum
  { s with numObs := n, runningMean := mean, cumSum := cum, minSum := mn
           driftState :=
             if s.burnIn ≤ s.numObs ∧ s.threshold < cum - mn then some true
             else none }

/-- `sklearn`'s `StandardScaler`, modelled by its fitted per-column means
and scales. -/
structure Scaler (α : Type) where
  mean : List α
  scale : List α
  deriving DecidableEq, Repr

/-- `StandardScaler.fit`: per-column mean and population standard
deviation, with zero scales replaced by 1 (`_handle_zeros_in_scale`).  The
square root is passed in as a function. -/
def fitScaler (sqrtF : α → α) (rows : List (List α)) : Scaler α :=
  let d := (rows.headD []).length
  let cols := (List.range d).map (fun j => rows.map (fun r => r.getD j 0))
  { mean := cols.map listMean
    scale := cols.map (fun c =>
      let s := sqrtF ((c.map (fun x => (x - listMean c) ^ 2)).sum / (c.length : α))
      if s = 0 then 1 else s) }

/-- `StandardScaler.transform` on one row: `(x - mean) / scale`. -/
def scalerApply (sc : Scaler α) (row : List α) : List α :=
  (row.zip (sc.mean.zip sc.scale)).map (fun p => (p.1 - p.2.1) / p.2.2)

/-- `StandardScaler.inverse_transform` on one row: `x * scale + mean`. -/
def scalerInverse (sc : Scaler α) (row : List α) : List α :=
  (row.zip (sc.mean.zip sc.scale)).map (fun p => p.1 * p.2.2 + p.2.1)

/-- `StandardScaler.transform` with `sklearn`'s feature-count validation:
raises on an observation whose dimensionality disagrees with the fitted
one. -/
def scalerTransformChecked (sc : Scaler α) (row : List α) :
    Except DetErr (List α) :=
  if row.length ≠ sc.mean.length then .error .dimMismatch
  else .ok (scalerApply sc row)

/-- A fitted `sklearn` PCA, modelled by its per-feature means and its
component matrix.  How `PCA(ev_threshold).fit` picks these is external to
the repository, so the fitting routine is an explicit argument of the
state machine below. -/
structure PcaModel (α : Type) where
  mean : List α
  components : List (List α)
  deriving DecidableEq, Repr

/-- Dot product of two equally long lists. -/
def dotProduct (xs ys : List α) : α :=
  ((xs.zip ys).map (fun ab => ab.1 * ab.2)).sum

/-- `PCA.transform` on one observation: `(x - mean_) @ components_.T`, with
`sklearn`'s feature-count validation (raises `ValueError` when the
dimensionality disagrees with the fitted basis). -/
def pcaTransform (p : PcaModel α) (x : List α) : Except DetErr (List α) :=
  if x.length ≠ p.mean.length then .error .dimMismatch
  else .ok (p.components.map (fun c => dotProduct (List.zipWith (· - ·) x p.mean) c))

/-- Method access on `self._pca` when it is still `None` raises
(`AttributeError`); otherwise `PCA.transform`. -/
def pcaTransformOpt : Option (PcaModel α) → List α → Except DetErr (List α)
  | none, _ => .error .attributeError
  | some p, x => pcaTransform p x

/-- One entry of `_density_reference` / `_density_test`: either a
kernel-density dict or a histogram dict, depending on the divergence
metric. -/
inductive DensityRep (α : Type) where
  | kde : KdeRep α → DensityRep α
  | hist : HistRep α → DensityRep α
  deriving DecidableEq, Repr

/-- Dict access `d["object"]`: only the kernel-density dicts carry the
fitted estimator; on a histogram dict this is a `KeyError`. -/
def DensityRep.asKde : DensityRep α → Except DetErr (KdeRep α)
  | .kde k => .ok k
  | .hist _ => .error .keyError

/-- Extraction of the histogram data from a density entry.  (For a fixed
`divergence_metric` the stored variant always matches, so the error branch
is unreachable in any run of the detector.) -/
def DensityRep.asHist : DensityRep α → Except DetErr (HistRep α)
  | .hist h => .ok h
  | .kde _ => .error .keyError

/-- `min()` of a Python sequence: `ValueError` when empty. -/
def pyMin (l : List α) : Except DetErr α :=
  match l.min? with
  | some m => .ok m
  | none => .error .valueError

/-- `max()` of a Python sequence: `ValueError` when empty. -/
def pyMax (l : List α) : Except DetErr α :=
  match l.max? with
  | some m => .ok m
  | none => .error .valueError

/-- `frame.iloc[:, i]`: column `i` of a list of rows. -/
def col (rows : List (List α)) (i : ℕ) : List α :=
  rows.map (fun r => r.getD i 0)

/-- Incremental construction of a Python dict keyed `PC1..PCk`: entries
built so far survive when the body raises partway through the loop. -/
def collectUntilErr {β : Type} (mk : ℕ → Except DetErr β) :
    List ℕ → List β × Option DetErr
  | [] => ([], none)
  | i :: is =>
    match mk i with
    | .error e => ([], some e)
    | .ok b =>
      let r := collectUntilErr mk is
      (b :: r.1, r.2)

/-- Dict lookup `d[f"PC{i+1}"]`: `KeyError` when absent. -/
def dictGet (l : List (DensityRep α)) (i : ℕ) : Except DetErr (DensityRep α) :=
  match l.get? i with
  | some d => .ok d
  | none => .error .keyError

/-- Body of the reference-density loop at the fill-to-monitor transition
(`pca_cd.py` lines 177-202): for the `"intersection"` metric a histogram of
the reference projection column over the combined reference+test range,
otherwise (any other metric string) a kernel density estimate of the
column. -/
def mkRefDensity (sqrtF powF : α → α) (metric : String) (bins : ℕ)
    (refProj testProj : List (List α)) (i : ℕ) : Except DetErr (DensityRep α) :=
  if metric = "intersection" then do
    let combined := col refProj i ++ col testProj i
    let lo ← pyMin combined
    let hi ← pyMax combined
    pure (.hist (buildHistograms (col refProj i) bins lo hi))
  else (buildKde sqrtF powF (col refProj i)).map .kde

/-- Body of the test-density loop at an evaluation tick (`pca_cd.py` lines
226-252): a histogram of the test projection column over the (freshly
recomputed) combined range for `"intersection"`, a kernel density for
`"kl"`; the caller skips the loop for any other metric. -/
def mkTestDensity (sqrtF powF : α → α) (metric : String) (bins : ℕ)
    (refProj testProj : List (List α)) (i : ℕ) : Except DetErr (DensityRep α) :=
  if metric = "intersection" then do
    let combined := col refProj i ++ col testProj i
    let lo ← pyMin combined
    let hi ← pyMax combined
    pure (.hist (buildHistograms (col testProj i) bins lo hi))
  else (buildKde sqrtF powF (col testProj i)).map .kde

/-- The per-component change scores at an evaluation tick (`pca_cd.py`
lines 255-284), dispatched on the metric string; an unknown metric leaves
the list empty. -/
def computeScores (logF expF : α → α) (metric : String) (numPcs : ℕ)
    (refProj testProj : List (List α))
    (densityReference densityTest : List (DensityRep α)) :
    Except DetErr (List α) :=
  if metric = "kl" then
    (List.range numPcs).mapM (fun i => do
      let dr ← dictGet densityReference i
      let dt ← dictGet densityTest i
      let kr ← dr.asKde
      let kt ← dt.asKde
      pure (modifiedKlDivergence logF expF (col refProj i) (col testProj i) kr kt))
  else if metric = "llh" then
    (List.range numPcs).mapM (fun i => do
      let dr ← dictGet densityReference i
      let kr ← dr.asKde
      pure (llhDivergence logF kr (col testProj i)))
  else if metric = "intersection" then
    (List.range numPcs).mapM (fun i => do
      let dr ← dictGet densityReference i
      let dt ← dictGet densityTest i
      let hr ← dr.asHist
      let ht ← dt.asHist
      pure (intersectionDivergence hr ht))
  else .ok []

/-- Constructor arguments of `PCACD.__init__`, with the Python defaults. -/
structure Config (α : Type) [LinearOrderedField α] where
  windowSize : ℤ
  evThreshold : α := (99 : α) / 100
  delta : α := (1 : α) / 10
  divergenceMetric : String := "kl"
  samplePeriod : α := (1 : α) / 20
  onlineScaling : Bool := false
  trackState : Bool := false
  deriving DecidableEq, Repr

/-- The full mutable state of a `PCACD` instance (including the counters
and `drift_state` of the `DriftDetector` base class, which is not under
`src/`; modelled from the spec and the attribute docstrings:
`total_samples` counts every update ever, `samples_since_reset` counts
updates since the last `reset()`, and `reset()` zeroes the latter and
clears `drift_state`). -/
structure DetState (α : Type) where
  totalSamples : ℕ
  samplesSinceReset : ℕ
  driftState : Option String
  windowSize : ℤ
  evThreshold : α
  divergenceMetric : String
  trackState : Bool
  samplePeriod : α
  step : ℤ
  phThreshold : ℤ
  bins : ℕ
  delta : α
  ph : PhState α
  driftTracker : List (PhState α)
  numPcs : Option ℕ
  onlineScaling : Bool
  scaler : Scaler α
  buildRefAndTest : Bool
  referenceWindow : List (List α)
  testWindow : List (List α)
  pca : Option (PcaModel α)
  refPcaProjection : List (List α)
  testPcaProjection : List (List α)
  densityReference : List (DensityRep α)
  densityTest : List (DensityRep α)
  changeScore : List α
  deriving DecidableEq, Repr

/-- The state built by the body of `PCACD.__init__` (no validation of the
configuration happens there): `step = min(100, round(sample_period *
window_size))`, `ph_threshold = round(0.01 * window_size)`,
`bins = int(floor(sqrt(window_size)))`, an embedded Page-Hinkley test with
burn-in 0, empty windows, and a change-score history seeded with 0. -/
def initState (cfg : Config α) : DetState α :=
  { totalSamples := 0, samplesSinceReset := 0, driftState := none
    windowSize := cfg.windowSize, evThreshold := cfg.evThreshold
    divergenceMetric := cfg.divergenceMetric, trackState := cfg.trackState
    samplePeriod := cfg.samplePeriod
    step := min 100 (pythonRound (cfg.samplePeriod * (cfg.windowSize : α)))
    phThreshold := pythonRound ((1 / 100 : α) * (cfg.windowSize : α))
    bins := Nat.sqrt cfg.windowSize.toNat
    delta := cfg.delta
    ph := phInit cfg.delta ((pythonRound ((1 / 100 : α) * (cfg.windowSize : α)) : ℤ) : α) 0
    driftTracker := [], numPcs := none
    onlineScaling := cfg.onlineScaling, scaler := { mean := [], scale := [] }
    buildRefAndTest := true, referenceWindow := [], testWindow := []
    pca := none, refPcaProjection := [], testPcaProjection := []
    densityReference := [], densityTest := [], changeScore := [0] }

/-- `PCACD.__init__`.  The only failing path in the constructor is
`int(np.floor(np.sqrt(window_size)))` for a negative `window_size`
(`np.sqrt` of a negative number is NaN and `int(nan)` raises); nothing
else in the constructor validates the configuration. -/
def init (cfg : Config α) : Except DetErr (DetState α) :=
  if cfg.windowSize < 0 then .error .nanToInt else .ok (initState cfg)

/-- The filling-phase branch of `PCACD.update` (lines 130-147): post-drift
roll-over (swap the test window into the reference window, inverse-scaling
first when online scaling is active, clear the test window, `reset()` the
base counters and drift state, reset the Page-Hinkley monitor), or append
the observation to whichever window is not yet full. -/
def fillingStep (s : DetState α) (obs : List α) : DetState α :=
  if s.driftState.isSome then
    let ref :=
      if s.onlineScaling then s.testWindow.map (scalerInverse s.scaler)
      else s.testWindow
    { s with referenceWindow := ref, testWindow := []
             samplesSinceReset := 0, driftState := none
             ph := phReset s.ph }
  else if (s.referenceWindow.length : ℤ) < s.windowSize then
    { s with referenceWindow := s.referenceWindow ++ [obs] }
  else if (s.testWindow.length : ℤ) < s.windowSize then
    { s with testWindow := s.testWindow ++ [obs] }
  else s

/-- The fill-to-monitor transition of `PCACD.update` (lines 149-202), run
when the test window has just reached `window_size`: clear the build flag,
optionally fit the scaler on the reference window and transform both
windows, fit the PCA basis (the fitting routine is an explicit argument),
project both windows, and build the reference density map.  An exception
partway through leaves exactly the state mutated so far, as in Python. -/
def transitionStep (sqrtF powF : α → α)
    (fitPca : List (List α) → PcaModel α) (s0 : DetState α) :
    DetState α × Option DetErr :=
  let s1 := { s0 with buildRefAndTest := false }
  let s2 :=
    if s1.onlineScaling then
      let sc := fitScaler sqrtF s1.referenceWindow
      { s1 with scaler := sc
                referenceWindow := s1.referenceWindow.map (scalerApply sc)
                testWindow := s1.testWindow.map (scalerApply sc) }
    else s1
  let p := fitPca s2.referenceWindow
  let s3 := { s2 with pca := some p, numPcs := some p.components.length }
  match s3.referenceWindow.mapM (pcaTransform p) with
  | .error e => (s3, some e)
  | .ok refProj =>
    let s4 := { s3 with refPcaProjection := refProj }
    match s4.testWindow.mapM (pcaTransform p) with
    | .error e => (s4, some e)
    | .ok testProj =>
      let s5 := { s4 with testPcaProjection := testProj }
      let built := collectUntilErr
        (mkRefDensity sqrtF powF s5.divergenceMetric s5.bins refProj testProj)
        (List.range p.components.length)
      ({ s5 with densityReference :=
            built.1 ++ s5.densityReference.drop built.1.length }, built.2)

/-- The monitoring branch of `PCACD.update` (lines 204-299): slide the test
window and its projection with the new (possibly scaled) observation, and
on an evaluation tick (`total_samples % step == 0 and total_samples != 0`,
where `total_samples` counts the previously consumed observations) rebuild
the test densities, compute the change score as the maximum per-component
divergence, append it to the history, feed it to the Page-Hinkley monitor
and latch drift if the monitor fires.  Each failing call site returns the
state exactly as mutated so far. -/
def monitorStep (sqrtF powF logF expF : α → α) (s : DetState α)
    (obs : List α) : DetState α × Option DetErr :=
  match (if s.onlineScaling then scalerTransformChecked s.scaler obs else .ok obs) with
  | .error e => (s, some e)
  | .ok obs' =>
    let s1 := { s with testWindow := s.testWindow.drop 1 ++ [obs'] }
    match pcaTransformOpt s1.pca obs' with
    | .error e => (s1, some e)
    | .ok proj =>
      let s2 := { s1 with testPcaProjection := s1.testPcaProjection.drop 1 ++ [proj] }
      if s2.step = 0 then (s2, some .zeroDivisionError)
      else if (s2.totalSamples : ℤ) % s2.step = 0 ∧ s2.totalSamples ≠ 0 then
        let k := s2.numPcs.getD 0
        let built :=
          if s2.divergenceMetric = "intersection" ∨ s2.divergenceMetric = "kl" then
            collectUntilErr
              (mkTestDensity sqrtF powF s2.divergenceMetric s2.bins
                s2.refPcaProjection s2.testPcaProjection)
              (List.range k)
          else ([], none)
        let s3 := { s2 with densityTest := built.1 }
        match built.2 with
        | some e => (s3, some e)
        | none =>
          match computeScores logF expF s3.divergenceMetric k
              s3.refPcaProjection s3.testPcaProjection
              s3.densityReference s3.densityTest with
          | .error e => (s3, some e)
          | .ok scores =>
            match scores.max? with
            | none => (s3, some .valueError)
            | some cs =>
              let s4 := { s3 with changeScore := s3.changeScore ++ [cs] }
              let ph' := phUpdate s4.ph cs
              let s5 := { s4 with ph := ph' }
              if ph'.driftState.isSome then
                ({ s5 with buildRefAndTest := true
                           driftState := some "drift"
                           driftTracker :=
                             if s5.trackState then s5.driftTracker ++ [ph']
                             else s5.driftTracker }, none)
              else (s5, none)
      else (s2, none)

/-- `PCACD.update(next_obs)`: the filling branch (with the transition when
the test window reaches `window_size`) or the monitoring branch, followed
by the base class's `super().update()` (increment both counters) — which,
as in Python, is skipped when an exception was raised earlier in the
call. -/
def update (sqrtF powF logF expF : α → α)
    (fitPca : List (List α) → PcaModel α) (s : DetState α) (obs : List α) :
    DetState α × Option DetErr :=
  let core :=
    if s.buildRefAndTest then
      let s1 := fillingStep s obs
      if (s1.testWindow.length : ℤ) = s1.windowSize then
        transitionStep sqrtF powF fitPca s1
      else (s1, none)
    else monitorStep sqrtF powF logF expF s obs
  match core with
  | (t, none) =>
    ({ t with totalSamples := t.totalSamples + 1
              samplesSinceReset := t.samplesSinceReset + 1 }, none)
  | (t, some e) => (t, some e)

/-- Whether a Python call returned normally rather than raising. -/
def exceptOk {β : Type} : Except DetErr β → Bool
  | .ok _ => true
  | .error _ => false

end Generic

/-! Concrete rational-valued runs of the detector, used by the witnesses
and counterexamples below.  Both runs use the `"intersection"` metric with
online scaling off, a path on which the detector calls none of the
real-valued numerical collaborators, so the placeholder routines below are
never invoked. -/

/-- Placeholder numerical routine for runs that never call it. -/
def idQ : ℚ → ℚ := fun x => x

/-- A concrete PCA fit for one-dimensional observations: identity
projection onto a single component. -/
def constFit : List (List ℚ) → PcaModel ℚ :=
  fun _ => { mean := [0], components := [[1]] }

/-- `update` specialised to the concrete rational run. -/
def updQ (s : DetState ℚ) (o : List ℚ) : DetState ℚ × Option DetErr :=
  update idQ idQ idQ idQ constFit s o

/-- Window size 2, sample period 1/2 (so `step = 1`), intersection
metric. -/
def cfgA : Config ℚ :=
  { windowSize := 2, samplePeriod := 1 / 2, divergenceMetric := "intersection" }

/-- The observation stream of the concrete run: one-dimensional literal
values. -/
def obsSeq : List (List ℚ) := [[1], [2], [3], [4], [5]]

/-- The run fed `[1], [2], [3], ...`: after 4 updates the windows are full
and the detector has just entered the monitoring phase. -/
def runA : ℕ → DetState ℚ
  | 0 => initState cfgA
  | n + 1 => (updQ (runA n) (obsSeq.getD n [0])).1

/-- A post-drift state on top of run A: drift latched, windows full. -/
def driftStateA : DetState ℚ :=
  { runA 4 with buildRefAndTest := true, driftState := some "drift" }

/-- A second post-drift state with different test-window contents. -/
def driftStateB : DetState ℚ :=
  { runA 4 with buildRefAndTest := true
                driftState := some "drift"
                testWindow := [[7], [8]] }

/-- A monitoring-phase state whose next observation does not land on an
evaluation tick (`totalSamples = 4` is not a multiple of `step = 3`). -/
def monStateC : DetState ℚ :=
  { runA 4 with step := 3 }

/-- The state `PCACD(window_size=2, sample_period=0.5,
divergence_metric="intersection")` is constructed with, written out
field by field. -/
def initA0 : DetState ℚ :=
  { totalSamples := 0, samplesSinceReset := 0, driftState := none
    windowSize := 2, evThreshold := 99 / 100
    divergenceMetric := "intersection"
    trackState := false, samplePeriod := 1 / 2, step := 1, phThreshold := 0
    bins := 1, delta := 1 / 10
    ph := { delta := 1 / 10, threshold := 0, burnIn := 0, numObs := 0
            runningMean := 0, cumSum := 0, minSum := 0, driftState := none }
    driftTracker := [], numPcs := none, onlineScaling := false
    scaler := { mean := [], scale := [] }
    buildRefAndTest := true, referenceWindow := [], testWindow := []
    pca := none, refPcaProjection := [], testPcaProjection := []
    densityReference := [], densityTest := [], changeScore := [0] }

/-- The state of run A after its four filling observations, written out:
the windows are full, the PCA basis is fit, the reference density is
built, and no change score has been produced yet. -/
def monA4 : DetState ℚ :=
  { initA0 with totalSamples := 4, samplesSinceReset := 4
                numPcs := some 1, buildRefAndTest := false
                referenceWindow := [[1], [2]], testWindow := [[3], [4]]
                pca := some { mean := [0], components := [[1]] }
                refPcaProjection := [[1], [2]]
                testPcaProjection := [[3], [4]]
                densityReference :=
                  [DensityRep.hist { binEdges := [1, 4], density := [1] }] }

/-- The state after the fifth observation of run A — the very first
monitoring-phase observation — written out: a divergence evaluation ran
(fresh test density, a second change score appended, one Page-Hinkley
step taken). -/
def monA5 : DetState ℚ :=
  { monA4 with totalSamples := 5, samplesSinceReset := 5
               testWindow := [[4], [5]], testPcaProjection := [[4], [5]]
               densityTest :=
                 [DensityRep.hist { binEdges := [1, 5], density := [1] }]
               changeScore := [0, 0]
               ph := { delta := 1 / 10, threshold := 0, burnIn := 0
                       numObs := 1, runningMean := 0, cumSum := -1 / 10
                       minSum := -1 / 10, driftState := none } }

section HistogramFacts

variable {α : Type} [LinearOrderedField α] [FloorRing α]

/-- Bridge between list-range sums and `Finset.range` sums. -/
theorem sum_map_range (n : ℕ) (f : ℕ → α) :
    ((List.range n).map f).sum = ∑ i ∈ Finset.range n, f i := by
  induction n with
  | zero => rfl
  | succ k ih =>
    rw [List.range_succ, List.map_append, List.sum_append, ih,
      Finset.sum_range_succ]
    simp

/-- Every point lands in a bin with index `< bins`. -/
theorem binIdx_lt (bins : ℕ) (hb : 0 < bins) (lo hi x : α) :
    binIdx bins lo hi x < bins :=
  lt_of_le_of_lt (Nat.min_le_left _ _) (Nat.sub_lt hb one_pos)

/-- The bins partition the in-range points: the bin counts sum to the number
of sample points inside the histogram range. -/
theorem sum_binCount (bins : ℕ) (hb : 0 < bins) (lo hi : α) (sample : List α) :
    ∑ i ∈ Finset.range bins, binCount bins lo hi sample i
      = inRangeCount lo hi sample := by
  induction sample with
  | nil => simp [binCount, inRangeCount]
  | cons x xs ih =>
    simp only [binCount, inRangeCount, List.countP_cons] at *
    rw [Finset.sum_add_distrib, ih]
    congr 1
    by_cases hx : inRange lo hi x
    · have hxd : decide (inRange lo hi x) = true := decide_eq_true hx
      simp only [hxd, Bool.true_and, beq_iff_eq, if_true]
      rw [Finset.sum_ite_eq]
      simp [Finset.mem_range.2 (binIdx_lt bins hb lo hi x)]
    · have hxd : decide (inRange lo hi x) = false := decide_eq_false hx
      simp [hxd]

/-- With a positive bin count, a non-degenerate range and a non-empty
in-range sample, the normalized histogram densities are exactly the per-bin
probability masses `count / sample size`. -/
theorem buildHistograms_density (sample : List α) (bins : ℕ) (lo hi : α)
    (hb : 0 < bins) (hlh : lo < hi) (hne : sample ≠ [])
    (hall : ∀ x ∈ sample, inRange lo hi x) :
    (buildHistograms sample bins lo hi).density
      = (List.range bins).map
          (fun i => (binCount bins lo hi sample i : α) / sample.length) := by
  have hN : inRangeCount lo hi sample = sample.length := by
    unfold inRangeCount
    rw [List.countP_eq_length]
    intro x hx
    exact decide_eq_true (hall x hx)
  have hNnz : (sample.length : α) ≠ 0 :=
    Nat.cast_ne_zero.2 (Nat.pos_iff_ne_zero.1 (List.length_pos.2 hne))
  have hw : (hi - lo) / (bins : α) ≠ 0 := by
    apply div_ne_zero
    · exact sub_ne_zero.2 (ne_of_gt hlh)
    · exact_mod_cast hb.ne'
  unfold buildHistograms
  simp only [hN]
  have hsum :
      ((List.range bins).map
        (fun i => (binCount bins lo hi sample i : α)
          / ((sample.length : α) * ((hi - lo) / bins)))).sum
        = 1 / ((hi - lo) / bins) := by
    rw [sum_map_range bins]
    rw [← Finset.sum_div]
    rw [← Nat.cast_sum]
    rw [sum_binCount bins hb lo hi sample, hN]
    rw [div_eq_div_iff (by positivity) (by
      rcases lt_or_gt_of_ne hw with h | h
      · exact ne_of_lt h
      · exact ne_of_gt h)]
    ring
  rw [hsum, List.map_map]
  apply List.map_congr_left
  intro i _
  simp only [Function.comp_apply]
  rw [div_div_eq_mul_div, div_one, div_mul_eq_mul_div, mul_div_mul_right _ _ hw]

/-- For a non-empty in-range sample the bin probability masses sum to 1. -/
theorem sum_prob_eq_one (sample : List α) (bins : ℕ) (lo hi : α)
    (hb : 0 < bins) (hne : sample ≠ [])
    (hall : ∀ x ∈ sample, inRange lo hi x) :
    ∑ i ∈ Finset.range bins,
        (binCount bins lo hi sample i : α) / sample.length = 1 := by
  have hN : inRangeCount lo hi sample = sample.length := by
    unfold inRangeCount
    rw [List.countP_eq_length]
    intro x hx
    exact decide_eq_true (hall x hx)
  have hNnz : (sample.length : α) ≠ 0 :=
    Nat.cast_ne_zero.2 (Nat.pos_iff_ne_zero.1 (List.length_pos.2 hne))
  rw [← Finset.sum_div, ← Nat.cast_sum, sum_binCount bins hb lo hi sample, hN,
    div_self hNnz]

/-- C4: for two samples binned with `_build_histograms` over the same bin
count and the same shared range, `_intersection_divergence` equals 1 minus
the sum over aligned bins of the minimum of the two bin probabilities, lies
in `[0, 1]`, and equals 0 when the two samples are identical. -/
theorem intersection_divergence_correct (xs ys : List α) (bins : ℕ)
    (lo hi : α) (hb : 0 < bins) (hlh : lo < hi)
    (hxs : xs ≠ []) (hys : ys ≠ [])
    (hxall : ∀ x ∈ xs, inRange lo hi x) (hyall : ∀ y ∈ ys, inRange lo hi y) :
    histDivergence xs ys bins lo hi
        = 1 - ∑ i ∈ Finset.range bins,
            min ((binCount bins lo hi xs i : α) / xs.length)
                ((binCount bins lo hi ys i : α) / ys.length)
      ∧ 0 ≤ histDivergence xs ys bins lo hi
      ∧ histDivergence xs ys bins lo hi ≤ 1
      ∧ (xs = ys → histDivergence xs ys bins lo hi = 0) := by
  have hdx := buildHistograms_density xs bins lo hi hb hlh hxs hxall
  have hdy := buildHistograms_density ys bins lo hi hb hlh hys hyall
  have hkey : histDivergence xs ys bins lo hi
      = 1 - ∑ i ∈ Finset.range bins,
          min ((binCount bins lo hi xs i : α) / xs.length)
              ((binCount bins lo hi ys i : α) / ys.length) := by
    unfold histDivergence intersectionDivergence
    rw [hdx, hdy, List.zip_map', List.map_map, Function.comp_def,
      sum_map_range]
  have hsx := sum_prob_eq_one xs bins lo hi hb hxs hxall
  have hsy := sum_prob_eq_one ys bins lo hi hb hys hyall
  refine ⟨hkey, ?_, ?_, ?_⟩
  · rw [hkey, sub_nonneg, ← hsx]
    exact Finset.sum_le_sum (fun i _ => min_le_left _ _)
  · rw [hkey]
    have : (0 : α) ≤ ∑ i ∈ Finset.range bins,
        min ((binCount bins lo hi xs i : α) / xs.length)
            ((binCount bins lo hi ys i : α) / ys.length) :=
      Finset.sum_nonneg (fun i _ => le_min (by positivity) (by positivity))
    linarith
  · intro hxy
    subst hxy
    rw [hkey]
    simp only [min_self]
    rw [hsx]
    ring

/-- Concrete instance for `intersection_divergence_correct`: two identical
two-point samples in one bin over the range `[0, 1]`. -/
theorem intersection_divergence_correct_witness :
    (0 < 1 ∧ (0 : ℚ) < 1 ∧ ([0, 1] : List ℚ) ≠ []
      ∧ (∀ x ∈ ([0, 1] : List ℚ), inRange 0 1 x))
    ∧ (histDivergence ([0, 1] : List ℚ) [0, 1] 1 0 1
          = 1 - ∑ i ∈ Finset.range 1,
              min ((binCount 1 (0 : ℚ) 1 [0, 1] i : ℚ) / ([0, 1] : List ℚ).length)
                  ((binCount 1 (0 : ℚ) 1 [0, 1] i : ℚ) / ([0, 1] : List ℚ).length)
        ∧ 0 ≤ histDivergence ([0, 1] : List ℚ) [0, 1] 1 0 1
        ∧ histDivergence ([0, 1] : List ℚ) [0, 1] 1 0 1 ≤ 1
        ∧ (([0, 1] : List ℚ) = [0, 1] →
            histDivergence ([0, 1] : List ℚ) [0, 1] 1 0 1 = 0)) :=
  ⟨⟨by decide, by decide, by decide, by decide⟩,
    intersection_divergence_correct [0, 1] [0, 1] 1 0 1 (by decide) (by decide)
      (by decide) (by decide) (by decide) (by decide)⟩

end HistogramFacts

section RealDivergences

/-- Sums of pointwise sums of two maps over the same list. -/
theorem sum_map_add {β : Type} (l : List β) (f g : β → ℝ) :
    (l.map (fun x => f x + g x)).sum = (l.map f).sum + (l.map g).sum := by
  induction l with
  | nil => simp
  | cons x t ih => simp [ih]; ring

/-- Every pair drawn from a list zipped with itself is diagonal. -/
theorem mem_zip_self {p : List ℝ} {ab : ℝ × ℝ} (h : ab ∈ p.zip p) :
    ab.1 = ab.2 := by
  induction p with
  | nil => simp at h
  | cons x t ih =>
    rcases List.mem_cons.mp h with h | h
    · rw [h]
    · exact ih h

/-- The symmetrized per-point Kullback-Leibler term is nonnegative. -/
theorem mul_log_ratio_add_nonneg (x y : ℝ) (hx : 0 < x) (hy : 0 < y) :
    0 ≤ x * Real.log (x / y) + y * Real.log (y / x) := by
  rw [Real.log_div hx.ne' hy.ne', Real.log_div hy.ne' hx.ne']
  have hkey : x * (Real.log x - Real.log y) + y * (Real.log y - Real.log x)
      = (x - y) * (Real.log x - Real.log y) := by ring
  rw [hkey]
  rcases le_total x y with hxy | hxy
  · have hlog : Real.log x ≤ Real.log y := Real.log_le_log hx hxy
    nlinarith
  · have hlog : Real.log y ≤ Real.log x := Real.log_le_log hy hxy
    exact mul_nonneg (by linarith) (by linarith)

/-- `scipy.stats.entropy` of a vector against itself vanishes. -/
theorem scipyEntropy_self (p : List ℝ) : scipyEntropy Real.log p p = 0 := by
  unfold scipyEntropy
  apply List.sum_eq_zero
  intro t ht
  rcases List.mem_map.mp ht with ⟨ab, hab, rfl⟩
  have hdiag : ab.1 = ab.2 := mem_zip_self hab
  by_cases hz : ab.1 / p.sum = 0
  · rw [hz, zero_mul]
  · rw [← hdiag, div_self hz, Real.log_one, mul_zero]

/-- The two directed `scipy.stats.entropy` values of positive, equally
long vectors sum to something nonnegative. -/
theorem scipyEntropy_add_nonneg (p q : List ℝ) (hlen : p.length = q.length)
    (hp : ∀ x ∈ p, 0 < x) (hq : ∀ x ∈ q, 0 < x) :
    0 ≤ scipyEntropy Real.log p q + scipyEntropy Real.log q p := by
  rcases List.eq_nil_or_concat p with rfl | _
  · have hq0 : q = [] := List.length_eq_zero.mp (by simpa using hlen.symm)
    subst hq0
    simp [scipyEntropy]
  · have hpne : p ≠ [] := by
      rintro rfl
      rename_i h
      rcases h with ⟨_, _, h⟩
      exact (List.concat_ne_nil _ _ h.symm).elim
    have hqne : q ≠ [] := by
      intro h
      subst h
      exact hpne (List.length_eq_zero.mp (by simpa using hlen))
    have hS : 0 < p.sum := List.sum_pos p hp hpne
    have hT : 0 < q.sum := List.sum_pos q hq hqne
    unfold scipyEntropy
    rw [← List.zip_swap p q, List.map_map]
    rw [← sum_map_add]
    apply List.sum_nonneg
    intro t ht
    rcases List.mem_map.mp ht with ⟨ab, hab, rfl⟩
    have hmem := List.of_mem_zip hab
    have ha : 0 < ab.1 := hp _ hmem.1
    have hb : 0 < ab.2 := hq _ hmem.2
    simp only [Function.comp_apply, Prod.fst_swap, Prod.snd_swap]
    exact mul_log_ratio_add_nonneg (ab.1 / p.sum) (ab.2 / q.sum)
      (div_pos ha hS) (div_pos hb hT)

/-- C5: `_modified_kl_divergence` evaluates both fitted kernels at every
point of the concatenated projections, takes the larger of the two
directed KL divergences computed on those estimates, is nonnegative, and
vanishes when the two samples (and their fitted densities) are
identical. -/
theorem modified_kl_divergence_correct (refP testP : List ℝ)
    (dr dt : KdeRep ℝ) :
    modifiedKlDivergence Real.log Real.exp refP testP dr dt
        = max
          (scipyEntropy Real.log
            ((refP ++ testP).map (fun x => Real.exp (scoreSamples Real.log dr x)))
            ((refP ++ testP).map (fun x => Real.exp (scoreSamples Real.log dt x))))
          (scipyEntropy Real.log
            ((refP ++ testP).map (fun x => Real.exp (scoreSamples Real.log dt x)))
            ((refP ++ testP).map (fun x => Real.exp (scoreSamples Real.log dr x))))
      ∧ 0 ≤ modifiedKlDivergence Real.log Real.exp refP testP dr dt
      ∧ (refP = testP → dr = dt →
          modifiedKlDivergence Real.log Real.exp refP testP dr dt = 0) := by
  refine ⟨rfl, ?_, ?_⟩
  · unfold modifiedKlDivergence
    have hadd := scipyEntropy_add_nonneg
      ((refP ++ testP).map (fun x => Real.exp (scoreSamples Real.log dr x)))
      ((refP ++ testP).map (fun x => Real.exp (scoreSamples Real.log dt x)))
      (by simp)
      (by
        intro x hx
        rcases List.mem_map.mp hx with ⟨y, _, rfl⟩
        exact Real.exp_pos _)
      (by
        intro x hx
        rcases List.mem_map.mp hx with ⟨y, _, rfl⟩
        exact Real.exp_pos _)
    by_contra hneg
    push_neg at hneg
    have h1 := lt_of_le_of_lt (le_max_left _ _) hneg
    have h2 := lt_of_le_of_lt (le_max_right _ _) hneg
    linarith
  · intro hpt hddt
    subst hpt
    subst hddt
    unfold modifiedKlDivergence
    dsimp only
    rw [scipyEntropy_self, max_self]

/-- Concrete instance for `modified_kl_divergence_correct`: identical
one-point projections and identical fitted densities give change score
exactly 0. -/
theorem modified_kl_divergence_correct_witness :
    modifiedKlDivergence Real.log Real.exp [0] [0]
        { density := [3 / 4], sample := [0], bandwidth := 1 }
        { density := [3 / 4], sample := [0], bandwidth := 1 } = 0 :=
  (modified_kl_divergence_correct [0] [0]
    { density := [3 / 4], sample := [0], bandwidth := 1 }
    { density := [3 / 4], sample := [0], bandwidth := 1 }).2.2 rfl rfl

/-- C3 (amended): `_llh_divergence` is the absolute difference of the test
total log-likelihood divided by the *reference* sample count and the
reference total log-likelihood divided by the *test* sample count (the
divisors are crossed); when the two lengths agree this coincides with the
claim's own-length normalization. -/
theorem llh_divergence_formula (dr : KdeRep ℝ) (test : List ℝ) :
    llhDivergence Real.log dr test
        = |(test.map (scoreSamples Real.log dr)).sum / (dr.density.length : ℝ)
            - (dr.density.map Real.log).sum / (test.length : ℝ)|
      ∧ (dr.density.length = test.length →
          llhDivergence Real.log dr test = llhDivergenceSpec Real.log dr test) := by
  constructor
  · rfl
  · intro hlen
    unfold llhDivergence llhDivergenceSpec
    dsimp only
    rw [hlen]
    exact abs_sub_comm _ _

/-- Concrete instance for `llh_divergence_formula`: equal reference and
test lengths make the crossed and own-length normalizations agree. -/
theorem llh_divergence_formula_witness :
    ([(3 : ℝ) / 4] : List ℝ).length = ([0] : List ℝ).length
      ∧ llhDivergence Real.log
          { density := [3 / 4], sample := [0], bandwidth := 1 } [0]
        = llhDivergenceSpec Real.log
          { density := [3 / 4], sample := [0], bandwidth := 1 } [0] :=
  ⟨rfl, (llh_divergence_formula
    { density := [3 / 4], sample := [0], bandwidth := 1 } [0]).2 rfl⟩

/-- The Epanechnikov KDE of the one-point sample `[0]` with bandwidth 1 has
density `3/4` at the origin. -/
theorem kdeDensityAt_single_zero : kdeDensityAt ([0] : List ℝ) 1 0 = 3 / 4 := by
  unfold kdeDensityAt epanechnikovKernel
  norm_num

/-- C3 (counterexample): on a reference density of length 1 and a test
projection of length 2, `_llh_divergence` differs from the claim's
own-length normalization (the code divides the test total by the reference
length and vice versa). -/
theorem llh_divergence_counterexample :
    llhDivergence Real.log
        { density := [3 / 4], sample := [0], bandwidth := 1 } [0, 0]
      ≠ llhDivergenceSpec Real.log
        { density := [3 / 4], sample := [0], bandwidth := 1 } [0, 0] := by
  have hL : Real.log (3 / 4) ≠ 0 := by
    intro h
    rcases Real.log_eq_zero.mp h with h | h | h <;> norm_num at h
  have hv1 : llhDivergence Real.log
      { density := [3 / 4], sample := [0], bandwidth := 1 } [0, 0]
      = |3 / 2 * Real.log (3 / 4)| := by
    unfold llhDivergence scoreSamples
    dsimp only
    simp only [List.map_cons, List.map_nil, List.sum_cons, List.sum_nil,
      List.length_cons, List.length_nil]
    rw [kdeDensityAt_single_zero]
    congr 1
    push_cast
    ring
  have hv2 : llhDivergenceSpec Real.log
      { density := [3 / 4], sample := [0], bandwidth := 1 } [0, 0] = 0 := by
    unfold llhDivergenceSpec scoreSamples
    dsimp only
    simp only [List.map_cons, List.map_nil, List.sum_cons, List.sum_nil,
      List.length_cons, List.length_nil]
    rw [kdeDensityAt_single_zero, abs_eq_zero]
    push_cast
    ring
  rw [hv1, hv2]
  intro h
  apply hL
  have := abs_eq_zero.mp h
  linarith

/-- C7: `_build_kde` on a constant (zero-variance) sample never silently
produces a degenerate density: `statistics.stdev` raises on fewer than two
points, and otherwise the bandwidth degenerates to 0 and `sklearn`'s
`KernelDensity` bandwidth validation raises — regardless of the fractional
power routine. -/
theorem build_kde_zero_variance (powF : ℝ → ℝ) (sample : List ℝ)
    (hconst : ∀ x ∈ sample, ∀ y ∈ sample, x = y) :
    buildKde Real.sqrt powF sample
      = .error (if sample.length < 2 then DetErr.statisticsError
                else DetErr.nonPositiveBandwidth) := by
  unfold buildKde
  by_cases hlen : sample.length < 2
  · simp [hlen]
  · have hne : sample ≠ [] := by
      intro h
      subst h
      simp at hlen
    obtain ⟨c, hc⟩ := List.exists_mem_of_ne_nil sample hne
    have hall : ∀ x ∈ sample, x = c := fun x hx => hconst x hx c hc
    have hmean : listMean sample = c := by
      unfold listMean
      rw [List.sum_eq_card_nsmul sample c hall]
      have hlp : (sample.length : ℝ) ≠ 0 := by
        have : sample.length ≠ 0 := by
          intro h
          exact hne (List.length_eq_zero.mp h)
        exact_mod_cast this
      rw [nsmul_eq_mul]
      field_simp
    have hvar : sampleVariance sample = 0 := by
      unfold sampleVariance
      rw [List.sum_eq_zero, zero_div]
      intro t ht
      rcases List.mem_map.mp ht with ⟨x, hx, rfl⟩
      rw [hmean, hall x hx]
      ring
    rw [hvar, Real.sqrt_zero]
    simp [hlen]

/-- Concrete instance for `build_kde_zero_variance`: the constant sample
`[1, 1]` makes `_build_kde` fail with the bandwidth validation error. -/
theorem build_kde_zero_variance_witness :
    (∀ x ∈ ([1, 1] : List ℝ), ∀ y ∈ ([1, 1] : List ℝ), x = y)
      ∧ buildKde Real.sqrt (fun x => x) ([1, 1] : List ℝ)
          = .error (if ([1, 1] : List ℝ).length < 2 then DetErr.statisticsError
                    else DetErr.nonPositiveBandwidth) :=
  ⟨by simp, build_kde_zero_variance (fun x => x) [1, 1] (by simp)⟩

end RealDivergences

section StateMachine

variable {α : Type} [LinearOrderedField α] [FloorRing α]

/-- Full characterization of the post-drift roll-over call: with drift
latched and a positive window size, `update` swaps the (inverse-scaled, if
scaling is on) test window into the reference window, clears the test
window, resets the drift state, the since-reset counter and the
Page-Hinkley monitor, counts the consumed observation, and touches nothing
else — independently of the observation passed in. -/
theorem update_rollover (sqrtF powF logF expF : α → α)
    (fitPca : List (List α) → PcaModel α) (s : DetState α) (obs : List α)
    (hb : s.buildRefAndTest = true) (hd : s.driftState.isSome = true)
    (hw : 0 < s.windowSize) :
    update sqrtF powF logF expF fitPca s obs =
      ({ s with
          referenceWindow :=
            if s.onlineScaling then s.testWindow.map (scalerInverse s.scaler)
            else s.testWindow
          testWindow := []
          samplesSinceReset := 1
          driftState := none
          ph := phReset s.ph
          totalSamples := s.totalSamples + 1 }, none) := by
  unfold update fillingStep
  rw [hb, hd]
  simp only [if_true]
  rw [if_neg]
  dsimp only
  simp only [List.length_nil, Nat.cast_zero]
  omega

/-- C6: once drift has been declared, the next `update` call swaps the test
window into the reference window (inverse-scaling first when online
scaling is active), empties the test window, clears the drift state and
the since-reset counter (which then counts this call's observation, hence
equals 1 afterwards), and resets the Page-Hinkley test to its
freshly-constructed state. -/
theorem drift_rollover_swaps_windows (sqrtF powF logF expF : α → α)
    (fitPca : List (List α) → PcaModel α) (s : DetState α) (obs : List α)
    (hb : s.buildRefAndTest = true) (hd : s.driftState.isSome = true)
    (hw : 0 < s.windowSize) :
    (update sqrtF powF logF expF fitPca s obs).2 = none
      ∧ (update sqrtF powF logF expF fitPca s obs).1.referenceWindow
          = (if s.onlineScaling then s.testWindow.map (scalerInverse s.scaler)
             else s.testWindow)
      ∧ (update sqrtF powF logF expF fitPca s obs).1.testWindow = []
      ∧ (update sqrtF powF logF expF fitPca s obs).1.ph = phReset s.ph
      ∧ (update sqrtF powF logF expF fitPca s obs).1.driftState = none
      ∧ (update sqrtF powF logF expF fitPca s obs).1.samplesSinceReset = 1 := by
  rw [update_rollover sqrtF powF logF expF fitPca s obs hb hd hw]
  exact ⟨rfl, rfl, rfl, rfl, rfl, rfl⟩

/-- Concrete instance for `drift_rollover_swaps_windows` on the post-drift
state of run A. -/
theorem drift_rollover_swaps_windows_witness :
    (driftStateA.buildRefAndTest = true ∧ driftStateA.driftState.isSome = true
        ∧ 0 < driftStateA.windowSize)
      ∧ ((update idQ idQ idQ idQ constFit driftStateA [9]).2 = none
        ∧ (update idQ idQ idQ idQ constFit driftStateA [9]).1.referenceWindow
            = (if driftStateA.onlineScaling then
                 driftStateA.testWindow.map (scalerInverse driftStateA.scaler)
               else driftStateA.testWindow)
        ∧ (update idQ idQ idQ idQ constFit driftStateA [9]).1.testWindow = []
        ∧ (update idQ idQ idQ idQ constFit driftStateA [9]).1.ph
            = phReset driftStateA.ph
        ∧ (update idQ idQ idQ idQ constFit driftStateA [9]).1.driftState = none
        ∧ (update idQ idQ idQ idQ constFit driftStateA [9]).1.samplesSinceReset
            = 1) :=
  ⟨⟨by decide, by decide, by decide⟩,
    drift_rollover_swaps_windows idQ idQ idQ idQ constFit driftStateA [9]
      (by decide) (by decide) (by decide)⟩

/-- C10: the observation passed to the post-drift roll-over call is
discarded — the call's result does not depend on it at all, it lands in
neither window, and it contributes only to the sample counters (the total
counter advances by one and the freshly-reset since-reset counter counts
just this observation). -/
theorem drift_rollover_discards_observation (sqrtF powF logF expF : α → α)
    (fitPca : List (List α) → PcaModel α) (s : DetState α)
    (hb : s.buildRefAndTest = true) (hd : s.driftState.isSome = true)
    (hw : 0 < s.windowSize) :
    (∀ obs obs' : List α,
        update sqrtF powF logF expF fitPca s obs
          = update sqrtF powF logF expF fitPca s obs')
      ∧ ∀ obs : List α,
          (update sqrtF powF logF expF fitPca s obs).1.referenceWindow
              = (if s.onlineScaling then
                   s.testWindow.map (scalerInverse s.scaler)
                 else s.testWindow)
            ∧ (update sqrtF powF logF expF fitPca s obs).1.testWindow = []
            ∧ (update sqrtF powF logF expF fitPca s obs).1.totalSamples
                = s.totalSamples + 1
            ∧ (update sqrtF powF logF expF fitPca s obs).1.samplesSinceReset
                = 1 := by
  constructor
  · intro obs obs'
    rw [update_rollover sqrtF powF logF expF fitPca s obs hb hd hw,
      update_rollover sqrtF powF logF expF fitPca s obs' hb hd hw]
  · intro obs
    rw [update_rollover sqrtF powF logF expF fitPca s obs hb hd hw]
    exact ⟨rfl, rfl, rfl, rfl⟩

/-- Concrete instance for `drift_rollover_discards_observation` on the
post-drift state of run B: feeding `[9]` or `[77]` makes no difference. -/
theorem drift_rollover_discards_observation_witness :
    (driftStateB.buildRefAndTest = true ∧ driftStateB.driftState.isSome = true
        ∧ 0 < driftStateB.windowSize)
      ∧ update idQ idQ idQ idQ constFit driftStateB [9]
          = update idQ idQ idQ idQ constFit driftStateB [77]
      ∧ (update idQ idQ idQ idQ constFit driftStateB [9]).1.testWindow = []
      ∧ (update idQ idQ idQ idQ constFit driftStateB [9]).1.totalSamples
          = driftStateB.totalSamples + 1 :=
  ⟨⟨by decide, by decide, by decide⟩,
    (drift_rollover_discards_observation idQ idQ idQ idQ constFit driftStateB
      (by decide) (by decide) (by decide)).1 [9] [77],
    ((drift_rollover_discards_observation idQ idQ idQ idQ constFit driftStateB
      (by decide) (by decide) (by decide)).2 [9]).2.1,
    ((drift_rollover_discards_observation idQ idQ idQ idQ constFit driftStateB
      (by decide) (by decide) (by decide)).2 [9]).2.2.1⟩

/-- The monitoring branch never touches the reference-side state: the
reference window, the fitted PCA model, the reference projection, the
reference density map, the scaler and the component count are carried
through every path (success, every raise site, and the drift-latch
path). -/
theorem monitorStep_preserves_reference (sqrtF powF logF expF : α → α)
    (s : DetState α) (obs : List α) :
    (monitorStep sqrtF powF logF expF s obs).1.referenceWindow
        = s.referenceWindow
      ∧ (monitorStep sqrtF powF logF expF s obs).1.pca = s.pca
      ∧ (monitorStep sqrtF powF logF expF s obs).1.refPcaProjection
          = s.refPcaProjection
      ∧ (monitorStep sqrtF powF logF expF s obs).1.densityReference
          = s.densityReference
      ∧ (monitorStep sqrtF powF logF expF s obs).1.scaler = s.scaler
      ∧ (monitorStep sqrtF powF logF expF s obs).1.numPcs = s.numPcs := by
  unfold monitorStep
  repeat' first
    | split
    | dsimp only
  all_goals exact ⟨rfl, rfl, rfl, rfl, rfl, rfl⟩

/-- In the monitoring branch the drift state and the build flag either
both survive unchanged or are set together when the Page-Hinkley monitor
fires. -/
theorem monitorStep_flag (sqrtF powF logF expF : α → α)
    (s : DetState α) (obs : List α) :
    ((monitorStep sqrtF powF logF expF s obs).1.driftState = s.driftState
        ∧ (monitorStep sqrtF powF logF expF s obs).1.buildRefAndTest
            = s.buildRefAndTest)
      ∨ ((monitorStep sqrtF powF logF expF s obs).1.driftState = some "drift"
        ∧ (monitorStep sqrtF powF logF expF s obs).1.buildRefAndTest = true) := by
  unfold monitorStep
  repeat' first
    | split
    | dsimp only
  all_goals first
    | exact Or.inr ⟨rfl, rfl⟩
    | exact Or.inl ⟨rfl, rfl⟩

/-- In the monitoring branch (`buildRefAndTest = false`) the full `update`
call agrees with `monitorStep` on everything except the two counters. -/
theorem update_monitor_fields (sqrtF powF logF expF : α → α)
    (fitPca : List (List α) → PcaModel α) (s : DetState α) (obs : List α)
    (h1 : s.buildRefAndTest = false) :
    (update sqrtF powF logF expF fitPca s obs).1.referenceWindow
        = (monitorStep sqrtF powF logF expF s obs).1.referenceWindow
      ∧ (update sqrtF powF logF expF fitPca s obs).1.pca
          = (monitorStep sqrtF powF logF expF s obs).1.pca
      ∧ (update sqrtF powF logF expF fitPca s obs).1.refPcaProjection
          = (monitorStep sqrtF powF logF expF s obs).1.refPcaProjection
      ∧ (update sqrtF powF logF expF fitPca s obs).1.densityReference
          = (monitorStep sqrtF powF logF expF s obs).1.densityReference
      ∧ (update sqrtF powF logF expF fitPca s obs).1.scaler
          = (monitorStep sqrtF powF logF expF s obs).1.scaler
      ∧ (update sqrtF powF logF expF fitPca s obs).1.numPcs
          = (monitorStep sqrtF powF logF expF s obs).1.numPcs
      ∧ (update sqrtF powF logF expF fitPca s obs).1.driftState
          = (monitorStep sqrtF powF logF expF s obs).1.driftState
      ∧ (update sqrtF powF logF expF fitPca s obs).1.buildRefAndTest
          = (monitorStep sqrtF powF logF expF s obs).1.buildRefAndTest := by
  unfold update
  rw [h1]
  simp only [Bool.false_eq_true, if_false]
  rcases hm : monitorStep sqrtF powF logF expF s obs with ⟨t, e⟩
  cases e <;> exact ⟨rfl, rfl, rfl, rfl, rfl, rfl, rfl, rfl⟩

/-- C8: a monitoring-phase `update` call that declares no drift leaves the
reference window, the fitted PCA basis, the reference projection and the
reference density map (as well as the scaler and the component count)
exactly as they were, and the detector stays in the monitoring phase; only
test-side state, the change-score history and the counters can change. -/
theorem monitoring_preserves_reference_state (sqrtF powF logF expF : α → α)
    (fitPca : List (List α) → PcaModel α) (s : DetState α) (obs : List α)
    (h1 : s.buildRefAndTest = false)
    (h2 : (update sqrtF powF logF expF fitPca s obs).1.driftState = none) :
    (update sqrtF powF logF expF fitPca s obs).1.referenceWindow
        = s.referenceWindow
      ∧ (update sqrtF powF logF expF fitPca s obs).1.pca = s.pca
      ∧ (update sqrtF powF logF expF fitPca s obs).1.refPcaProjection
          = s.refPcaProjection
      ∧ (update sqrtF powF logF expF fitPca s obs).1.densityReference
          = s.densityReference
      ∧ (update sqrtF powF logF expF fitPca s obs).1.scaler = s.scaler
      ∧ (update sqrtF powF logF expF fitPca s obs).1.numPcs = s.numPcs
      ∧ (update sqrtF powF logF expF fitPca s obs).1.buildRefAndTest = false := by
  obtain ⟨e1, e2, e3, e4, e5, e6, e7, e8⟩ :=
    update_monitor_fields sqrtF powF logF expF fitPca s obs h1
  obtain ⟨m1, m2, m3, m4, m5, m6⟩ :=
    monitorStep_preserves_reference sqrtF powF logF expF s obs
  rcases monitorStep_flag sqrtF powF logF expF s obs with ⟨hd, hbf⟩ | ⟨hd, hbf⟩
  · exact ⟨e1.trans m1, e2.trans m2, e3.trans m3, e4.trans m4, e5.trans m5,
      e6.trans m6, e8.trans (hbf.trans h1)⟩
  · rw [e7, hd] at h2
    exact absurd h2 (by simp)

/-- Concrete instance for `monitoring_preserves_reference_state`: an
off-tick monitoring call on run A leaves all reference-side state
untouched. -/
theorem monitoring_preserves_reference_state_witness :
    (monStateC.buildRefAndTest = false
        ∧ (update idQ idQ idQ idQ constFit monStateC [9]).1.driftState = none)
      ∧ ((update idQ idQ idQ idQ constFit monStateC [9]).1.referenceWindow
            = monStateC.referenceWindow
        ∧ (update idQ idQ idQ idQ constFit monStateC [9]).1.pca = monStateC.pca
        ∧ (update idQ idQ idQ idQ constFit monStateC [9]).1.refPcaProjection
            = monStateC.refPcaProjection
        ∧ (update idQ idQ idQ idQ constFit monStateC [9]).1.densityReference
            = monStateC.densityReference
        ∧ (update idQ idQ idQ idQ constFit monStateC [9]).1.scaler
            = monStateC.scaler
        ∧ (update idQ idQ idQ idQ constFit monStateC [9]).1.numPcs
            = monStateC.numPcs
        ∧ (update idQ idQ idQ idQ constFit monStateC [9]).1.buildRefAndTest
            = false) :=
  ⟨⟨by decide, by decide⟩,
    monitoring_preserves_reference_state idQ idQ idQ idQ constFit monStateC [9]
      (by decide) (by decide)⟩

/-- C9 (amended): in the monitoring phase with online scaling off, an
observation whose dimensionality disagrees with the fitted PCA basis makes
the `update` call fail at the projection step — but only after the test
window has already been mutated (oldest row evicted, misshapen observation
appended); everything else, including the test projection, the change-score
history and the counters, is untouched. -/
theorem shape_mismatch_partial_mutation (sqrtF powF logF expF : α → α)
    (fitPca : List (List α) → PcaModel α) (s : DetState α) (obs : List α)
    (p : PcaModel α) (h1 : s.buildRefAndTest = false)
    (h2 : s.onlineScaling = false) (h3 : s.pca = some p)
    (h4 : obs.length ≠ p.mean.length) :
    update sqrtF powF logF expF fitPca s obs
      = ({ s with testWindow := s.testWindow.drop 1 ++ [obs] },
         some DetErr.dimMismatch) := by
  unfold update monitorStep
  rw [h1]
  simp only [Bool.false_eq_true, if_false, h2]
  rw [h3]
  unfold pcaTransformOpt pcaTransform
  dsimp only
  rw [if_pos h4]

/-- Concrete instance for `shape_mismatch_partial_mutation`: a
two-dimensional observation fed to the one-dimensional monitoring state of
run A. -/
theorem shape_mismatch_partial_mutation_witness :
    ((runA 4).buildRefAndTest = false ∧ (runA 4).onlineScaling = false
        ∧ (runA 4).pca = some { mean := [0], components := [[1]] }
        ∧ ([1, 2] : List ℚ).length ≠ ([(0 : ℚ)] : List ℚ).length)
      ∧ update idQ idQ idQ idQ constFit (runA 4) [1, 2]
          = ({ runA 4 with
                testWindow := (runA 4).testWindow.drop 1 ++ [[1, 2]] },
             some DetErr.dimMismatch) :=
  ⟨⟨by decide, by decide, by decide, by decide⟩,
    shape_mismatch_partial_mutation idQ idQ idQ idQ constFit (runA 4) [1, 2]
      { mean := [0], components := [[1]] }
      (by decide) (by decide) (by decide) (by decide)⟩

/-- C9 (counterexample): on the concrete monitoring state of run A, the
shape-mismatched call does fail, but the detector state is *not* what it
was before the call — the test window mutation survives the failure. -/
theorem shape_mismatch_counterexample :
    (runA 4).buildRefAndTest = false
      ∧ (update idQ idQ idQ idQ constFit (runA 4) [1, 2]).2
          = some DetErr.dimMismatch
      ∧ (update idQ idQ idQ idQ constFit (runA 4) [1, 2]).1.testWindow
          ≠ (runA 4).testWindow := by
  refine ⟨by decide, by decide, by decide⟩

/-- The change-score history of a monitoring call that raises no exception
grows by one exactly on an evaluation tick — when the count of previously
consumed observations is a nonzero multiple of `step` — and is unchanged
otherwise. -/
theorem monitorStep_changeScore_len (sqrtF powF logF expF : α → α)
    (s : DetState α) (obs : List α)
    (hok : (monitorStep sqrtF powF logF expF s obs).2 = none) :
    (monitorStep sqrtF powF logF expF s obs).1.changeScore.length
      = s.changeScore.length
        + (if (s.totalSamples : ℤ) % s.step = 0 ∧ s.totalSamples ≠ 0 then 1
           else 0) := by
  rcases hm : monitorStep sqrtF powF logF expF s obs with ⟨t, e⟩
  rw [hm] at hok
  replace hok : e = none := hok
  subst hok
  unfold monitorStep at hm
  repeat' first
    | (split at hm)
    | (dsimp only at hm)
  all_goals rw [Prod.mk.injEq] at hm
  all_goals obtain ⟨ht, he⟩ := hm
  all_goals try (exact absurd he (Option.some_ne_none _))
  all_goals subst ht
  all_goals try rw [if_pos (by assumption)]
  all_goals try rw [if_neg (by assumption)]
  all_goals simp

/-- C2 (amended): the evaluation cadence.  The step is
`min(100, round(sample_period * window_size))`; a monitoring-phase call
that raises no exception appends one change score exactly when the global
count of previously consumed observations (never reset, even across
epochs) is a nonzero multiple of `step`; and for `window_size = 1000` with
the default `sample_period = 0.05` the step is 50 — in particular the very
first post-fill observation, with global index `2 * window_size`, lands on
an evaluation tick whenever `step` divides `2 * window_size`. -/
theorem evaluation_cadence (sqrtF powF logF expF : α → α)
    (fitPca : List (List α) → PcaModel α) :
    (∀ cfg : Config α,
        (initState cfg).step
          = min 100 (pythonRound (cfg.samplePeriod * (cfg.windowSize : α))))
      ∧ (∀ (s : DetState α) (obs : List α),
          s.buildRefAndTest = false →
          (update sqrtF powF logF expF fitPca s obs).2 = none →
          (update sqrtF powF logF expF fitPca s obs).1.changeScore.length
            = s.changeScore.length
              + (if (s.totalSamples : ℤ) % s.step = 0 ∧ s.totalSamples ≠ 0
                 then 1 else 0))
      ∧ (initState ({ windowSize := 1000 } : Config α)).step = 50 := by
  refine ⟨fun cfg => rfl, ?_, ?_⟩
  · intro s obs h1 hok
    have hcore : (update sqrtF powF logF expF fitPca s obs).1.changeScore
        = (monitorStep sqrtF powF logF expF s obs).1.changeScore
        ∧ (update sqrtF powF logF expF fitPca s obs).2
            = (monitorStep sqrtF powF logF expF s obs).2 := by
      unfold update
      rw [h1]
      simp only [Bool.false_eq_true, if_false]
      rcases monitorStep sqrtF powF logF expF s obs with ⟨t, e⟩
      cases e <;> exact ⟨rfl, rfl⟩
    rw [hcore.1]
    rw [hcore.2] at hok
    exact monitorStep_changeScore_len sqrtF powF logF expF s obs hok
  · show min 100 (pythonRound ((1 : α) / 20 * ((1000 : ℤ) : α))) = 50
    have harg : (1 : α) / 20 * ((1000 : ℤ) : α) = ((50 : ℤ) : α) := by
      push_cast
      ring
    rw [harg]
    unfold pythonRound
    rw [Int.floor_intCast]
    norm_num

/-- Concrete instance for `evaluation_cadence`: the off-tick monitoring
state of run A (`4 % 3 ≠ 0`) gains no change score. -/
theorem evaluation_cadence_witness :
    (monStateC.buildRefAndTest = false
        ∧ (update idQ idQ idQ idQ constFit monStateC [9]).2 = none)
      ∧ (update idQ idQ idQ idQ constFit monStateC [9]).1.changeScore.length
          = monStateC.changeScore.length
            + (if (monStateC.totalSamples : ℤ) % monStateC.step = 0
                  ∧ monStateC.totalSamples ≠ 0 then 1 else 0) :=
  ⟨⟨by decide, by decide⟩,
    (evaluation_cadence idQ idQ idQ idQ constFit).2.1 monStateC [9]
      (by decide) (by decide)⟩

/-- The construction state of run A, evaluated. -/
theorem initState_cfgA : initState cfgA = initA0 := by
  have hsq : Nat.sqrt (Int.toNat 2) = 1 := by
    rw [show Int.toNat 2 = 2 from rfl]
    apply le_antisymm
    · have := Nat.sqrt_lt (m := 2) (n := 2)
      omega
    · have := Nat.le_sqrt (m := 1) (n := 2)
      omega
  unfold initState cfgA initA0 pythonRound phInit
  norm_num [hsq]

set_option maxRecDepth 8000 in
/-- The four filling observations of run A, evaluated. -/
theorem runA_four : runA 4 = monA4 := by
  show (updQ (updQ (updQ (updQ (runA 0) (obsSeq.getD 0 [0])).1
    (obsSeq.getD 1 [0])).1 (obsSeq.getD 2 [0])).1 (obsSeq.getD 3 [0])).1
      = monA4
  rw [show runA 0 = initA0 from initState_cfgA]
  unfold updQ update fillingStep transitionStep mkRefDensity collectUntilErr
    obsSeq
  norm_num [initA0, monA4, constFit, pcaTransform, dotProduct, col, pyMin,
    pyMax, buildHistograms, binCount, inRangeCount, binIdx, inRange,
    collectUntilErr, List.min?, List.max?, min_def, max_def, List.countP,
    List.countP.go, List.mapM, List.mapM.loop, List.foldl, Bind.bind,
    Except.bind, pure, Except.pure, List.range_succ, List.range_zero,
    List.getD, List.singleton]

set_option maxRecDepth 8000 in
/-- The fifth observation of run A — the first monitoring observation —
evaluated: the call raises nothing and runs a full divergence
evaluation. -/
theorem updQ_monA4_tick : updQ monA4 [5] = (monA5, none) := by
  unfold updQ update monitorStep
  norm_num +decide [mkTestDensity, computeScores, collectUntilErr, monA4,
    monA5, initA0, constFit, pcaTransform, pcaTransformOpt, dotProduct,
    col, pyMin, pyMax, buildHistograms, binCount, inRangeCount, binIdx,
    inRange, intersectionDivergence, phUpdate, phInit, dictGet,
    DensityRep.asHist, List.min?, List.max?, min_def, max_def, List.countP,
    List.countP.go, List.mapM, List.mapM.loop, List.foldl, Bind.bind,
    Except.bind, pure, Except.pure, List.range_succ, List.range_zero,
    List.getD, List.singleton]

/-- C2 (counterexample): on run A (`window_size = 2`, `step = 1`) the very
first observation of the monitoring phase — the detector has just left the
filling phase, having consumed `4 = 2 * window_size` observations — *does*
trigger a divergence evaluation: the change-score history grows on that
call, contrary to the claim that the first monitoring observation is
always skipped. -/
theorem first_tick_counterexample :
    (runA 3).buildRefAndTest = true
      ∧ (runA 4).buildRefAndTest = false
      ∧ (runA 4).totalSamples = 4
      ∧ (runA 4).windowSize = 2
      ∧ (runA 4).step = 1
      ∧ (update idQ idQ idQ idQ constFit (runA 4) [5]).2 = none
      ∧ (update idQ idQ idQ idQ constFit (runA 4) [5]).1.changeScore.length
          = (runA 4).changeScore.length + 1 := by
  refine ⟨by decide, by decide, by decide, by decide, ?_, ?_, ?_⟩
  · rw [runA_four]
    decide
  · show (updQ (runA 4) [5]).2 = none
    rw [runA_four, updQ_monA4_tick]
  · show (updQ (runA 4) [5]).1.changeScore.length
      = (runA 4).changeScore.length + 1
    rw [runA_four, updQ_monA4_tick]
    decide

/-- C1 (amended): the constructor performs no configuration validation at
all — `__init__` succeeds exactly when `window_size` is nonnegative (the
single failing path is `int(floor(sqrt(window_size)))` on a negative
`window_size`, where `np.sqrt` yields NaN and `int(nan)` raises); the
divergence metric and `ev_threshold` are never checked at construction
time. -/
theorem constructor_never_validates (cfg : Config α) :
    exceptOk (init cfg) = true ↔ 0 ≤ cfg.windowSize := by
  unfold init
  by_cases h : cfg.windowSize < 0
  · rw [if_pos h]
    unfold exceptOk
    constructor
    · intro hfalse
      exact absurd hfalse (by simp)
    · intro hge
      omega
  · rw [if_neg h]
    unfold exceptOk
    constructor
    · intro _
      omega
    · intro _
      rfl

/-- C1 (counterexample): constructions the claim requires to fail — an
unknown divergence metric, `window_size = 0`, and an `ev_threshold`
outside `(0, 1]` — all succeed. -/
theorem constructor_accepts_invalid_config :
    ("xyz" ≠ "kl" ∧ "xyz" ≠ "llh" ∧ "xyz" ≠ "intersection")
      ∧ exceptOk (init ({ windowSize := 4, divergenceMetric := "xyz" } : Config ℚ))
          = true
      ∧ exceptOk (init ({ windowSize := 0 } : Config ℚ)) = true
      ∧ exceptOk (init ({ windowSize := 4, evThreshold := 5 } : Config ℚ))
          = true := by
  refine ⟨⟨by decide, by decide, by decide⟩, by decide, by decide, by decide⟩

end StateMachine


end PcaCd
